import Mathlib

/-!
Shallow embedding of the options-pricing core of the repository:
the Black-Scholes pricing engine (src/unnamed/part_000, `BlackScholes`),
the seller yield analyzer (`calculateYieldAnalysis`, two variants in
src/app.js plus a guarded copy in src/unnamed/part_000), and the payoff
curve generator (`PLChart.calculatePLData` in src/chart.js).

JavaScript numbers are modelled as real numbers (exact field arithmetic);
`Math.exp`, `Math.log`, `Math.sqrt` and `Math.abs` become `Real.exp`,
`Real.log`, `Real.sqrt` and `|·|`.  The `'call'`/`'put'` string dispatch
becomes a two-constructor inductive type.  JS `Infinity`, used by the
chart for unbounded max profit/loss, is modelled by a dedicated
constructor of `Chart.PLBound`, distinct from every finite value.
-/

inductive OptionType where
  | call
  | put
  deriving DecidableEq

namespace BlackScholes

/-- Abramowitz and Stegun constant `a1 = 0.254829592` (part_000 line 12). -/
def a1 : ℝ := 0.254829592
/-- Abramowitz and Stegun constant `a2 = -0.284496736` (part_000 line 13). -/
def a2 : ℝ := -0.284496736
/-- Abramowitz and Stegun constant `a3 = 1.421413741` (part_000 line 14). -/
def a3 : ℝ := 1.421413741
/-- Abramowitz and Stegun constant `a4 = -1.453152027` (part_000 line 15). -/
def a4 : ℝ := -1.453152027
/-- Abramowitz and Stegun constant `a5 = 1.061405429` (part_000 line 16). -/
def a5 : ℝ := 1.061405429
/-- Abramowitz and Stegun constant `p = 0.3275911` (part_000 line 17). -/
def p : ℝ := 0.3275911

/-- The Horner-evaluated quintic
`(((((a5*t + a4)*t) + a3)*t + a2)*t + a1) * t` appearing in `normCDF`
(part_000 line 23). -/
def polyA (t : ℝ) : ℝ :=
  (((((a5 * t + a4) * t) + a3) * t + a2) * t + a1) * t

/-- `BlackScholes.normCDF` (part_000 lines 11-26): the Abramowitz-Stegun
rational approximation of the standard normal CDF, with
`sign = x < 0 ? -1 : 1`, the argument rescaled to `|x|/sqrt 2`, and
`y = 1 - poly(t) * exp(-x*x)` for `t = 1/(1 + p*x)`. -/
noncomputable def normCDF (x : ℝ) : ℝ :=
  let sgn : ℝ := if x < 0 then -1 else 1
  let x' : ℝ := |x| / Real.sqrt 2
  let t : ℝ := 1 / (1 + p * x')
  let y : ℝ := 1 - polyA t * Real.exp (-(x' * x'))
  0.5 * (1 + sgn * y)

/-- `BlackScholes.normPDF` (part_000 lines 31-33). -/
noncomputable def normPDF (x : ℝ) : ℝ :=
  Real.exp (-0.5 * x * x) / Real.sqrt (2 * Real.pi)

/-- The `d1` component of `BlackScholes.calculateD1D2` (part_000 line 45). -/
noncomputable def d1 (S K T r sigma q : ℝ) : ℝ :=
  (Real.log (S / K) + (r - q + 0.5 * sigma * sigma) * T) / (sigma * Real.sqrt T)

/-- The `d2` component of `BlackScholes.calculateD1D2` (part_000 line 46). -/
noncomputable def d2 (S K T r sigma q : ℝ) : ℝ :=
  d1 S K T r sigma q - sigma * Real.sqrt T

/-- `BlackScholes.price` (part_000 lines 60-77).  `T <= 0` takes the
at-expiration branch; otherwise the closed Black-Scholes formula. -/
noncomputable def price (ty : OptionType) (S K T r sigma q : ℝ) : ℝ :=
  if T ≤ 0 then
    match ty with
    | .call => max 0 (S - K)
    | .put => max 0 (K - S)
  else
    match ty with
    | .call =>
        S * Real.exp (-q * T) * normCDF (d1 S K T r sigma q)
          - K * Real.exp (-r * T) * normCDF (d2 S K T r sigma q)
    | .put =>
        K * Real.exp (-r * T) * normCDF (-(d2 S K T r sigma q))
          - S * Real.exp (-q * T) * normCDF (-(d1 S K T r sigma q))

/-- `BlackScholes.delta` (part_000 lines 82-99).  At `T <= 0` the code
returns `S > K ? 1 : 0` for calls and `S < K ? -1 : 0` for puts. -/
noncomputable def delta (ty : OptionType) (S K T r sigma q : ℝ) : ℝ :=
  if T ≤ 0 then
    match ty with
    | .call => if K < S then 1 else 0
    | .put => if S < K then -1 else 0
  else
    match ty with
    | .call => Real.exp (-q * T) * normCDF (d1 S K T r sigma q)
    | .put => Real.exp (-q * T) * (normCDF (d1 S K T r sigma q) - 1)

/-- `BlackScholes.gamma` (part_000 lines 104-111). -/
noncomputable def gamma (S K T r sigma q : ℝ) : ℝ :=
  if T ≤ 0 then 0
  else Real.exp (-q * T) * normPDF (d1 S K T r sigma q) / (S * sigma * Real.sqrt T)

/-- `BlackScholes.theta` (part_000 lines 117-136), per-calendar-day. -/
noncomputable def theta (ty : OptionType) (S K T r sigma q : ℝ) : ℝ :=
  if T ≤ 0 then 0
  else
    let term1 := -(S * sigma * Real.exp (-q * T) * normPDF (d1 S K T r sigma q))
      / (2 * Real.sqrt T)
    match ty with
    | .call =>
        (term1 + (-r * K * Real.exp (-r * T) * normCDF (d2 S K T r sigma q))
          + q * S * Real.exp (-q * T) * normCDF (d1 S K T r sigma q)) / 365
    | .put =>
        (term1 + r * K * Real.exp (-r * T) * normCDF (-(d2 S K T r sigma q))
          + (-q * S * Real.exp (-q * T) * normCDF (-(d1 S K T r sigma q)))) / 365

/-- `BlackScholes.vega` (part_000 lines 142-149), per 1% volatility. -/
noncomputable def vega (S K T r sigma q : ℝ) : ℝ :=
  if T ≤ 0 then 0
  else (S * Real.exp (-q * T) * normPDF (d1 S K T r sigma q) * Real.sqrt T) / 100

/-- `BlackScholes.rho` (part_000 lines 155-166), per 1% rate. -/
noncomputable def rho (ty : OptionType) (S K T r sigma q : ℝ) : ℝ :=
  if T ≤ 0 then 0
  else
    match ty with
    | .call => (K * T * Real.exp (-r * T) * normCDF (d2 S K T r sigma q)) / 100
    | .put => (-K * T * Real.exp (-r * T) * normCDF (-(d2 S K T r sigma q))) / 100

/-- The record returned by `BlackScholes.calculateAll` (part_000 lines 171-180). -/
structure GreeksResult where
  price : ℝ
  delta : ℝ
  gamma : ℝ
  theta : ℝ
  vega : ℝ
  rho : ℝ

/-- `BlackScholes.calculateAll` (part_000 lines 171-180). -/
noncomputable def calculateAll (ty : OptionType) (S K T r sigma q : ℝ) : GreeksResult :=
  { price := price ty S K T r sigma q
    delta := delta ty S K T r sigma q
    gamma := gamma S K T r sigma q
    theta := theta ty S K T r sigma q
    vega := vega S K T r sigma q
    rho := rho ty S K T r sigma q }

/-- `BlackScholes.intrinsicValue` (part_000 lines 185-191). -/
noncomputable def intrinsicValue (ty : OptionType) (S K : ℝ) : ℝ :=
  match ty with
  | .call => max 0 (S - K)
  | .put => max 0 (K - S)

/-- `BlackScholes.probITM` (part_000 lines 197-213).  At `T <= 0` the code
returns `S > K ? 1 : 0` for calls and `S < K ? 1 : 0` for puts. -/
noncomputable def probITM (ty : OptionType) (S K T r sigma q : ℝ) : ℝ :=
  if T ≤ 0 then
    match ty with
    | .call => if K < S then 1 else 0
    | .put => if S < K then 1 else 0
  else
    match ty with
    | .call => normCDF (d2 S K T r sigma q)
    | .put => normCDF (-(d2 S K T r sigma q))

/-- `BlackScholes.breakeven` (part_000 lines 218-224). -/
def breakeven (ty : OptionType) (K premium : ℝ) : ℝ :=
  match ty with
  | .call => K + premium
  | .put => K - premium

end BlackScholes

namespace App

/-- The eight numeric quantities computed by `calculateYieldAnalysis`
(src/app.js lines 301-337). -/
structure YieldMetrics where
  periodYield : ℝ
  annualizedYield : ℝ
  premiumPerDay : ℝ
  monthlyYield : ℝ
  capitalRequired : ℝ
  assignedReturn : ℝ
  assignedAnnualizedReturn : ℝ
  effectivePrice : ℝ

/-- The first `calculateYieldAnalysis` variant (src/app.js lines 301-378).
It has no guard on `premium` and computes the yield formulas
unconditionally. -/
noncomputable def calculateYieldAnalysisV1 (S K days premium : ℝ)
    (ty : OptionType) : YieldMetrics :=
  let periodYield := premium / S
  let annualizedYield := periodYield * (365 / days)
  let premiumPerDay := premium / days
  let monthlyYield := annualizedYield / 12
  let capitalRequired := match ty with
    | .call => S * 100
    | .put => K * 100
  match ty with
  | .call =>
      let totalReturn := premium + (K - S)
      let assignedReturn := totalReturn / S
      { periodYield := periodYield
        annualizedYield := annualizedYield
        premiumPerDay := premiumPerDay
        monthlyYield := monthlyYield
        capitalRequired := capitalRequired
        assignedReturn := assignedReturn
        assignedAnnualizedReturn := assignedReturn * (365 / days)
        effectivePrice := K + premium }
  | .put =>
      let assignedReturn := premium / K
      { periodYield := periodYield
        annualizedYield := annualizedYield
        premiumPerDay := premiumPerDay
        monthlyYield := monthlyYield
        capitalRequired := capitalRequired
        assignedReturn := assignedReturn
        assignedAnnualizedReturn := assignedReturn * (365 / days)
        effectivePrice := K - premium }

/-- The second `calculateYieldAnalysis` variant (src/app.js lines 943-1009,
textually repeated in src/unnamed/part_000 lines 953-1028): when
`!premium || premium <= 0` it resets the display to the blank sentinel
(`resetYieldDisplay`, every field `'--'`), modelled as `none`; otherwise
it computes exactly the formulas of the first variant. -/
noncomputable def calculateYieldAnalysisV2 (S K days premium : ℝ)
    (ty : OptionType) : Option YieldMetrics :=
  if premium ≤ 0 then none
  else
    let periodYield := premium / S
    let annualizedYield := periodYield * (365 / days)
    let premiumPerDay := premium / days
    let monthlyYield := annualizedYield / 12
    let capitalRequired := match ty with
      | .call => S * 100
      | .put => K * 100
    match ty with
    | .call =>
        let totalReturn := premium + (K - S)
        let assignedReturn := totalReturn / S
        some
          { periodYield := periodYield
            annualizedYield := annualizedYield
            premiumPerDay := premiumPerDay
            monthlyYield := monthlyYield
            capitalRequired := capitalRequired
            assignedReturn := assignedReturn
            assignedAnnualizedReturn := assignedReturn * (365 / days)
            effectivePrice := K + premium }
    | .put =>
        let assignedReturn := premium / K
        some
          { periodYield := periodYield
            annualizedYield := annualizedYield
            premiumPerDay := premiumPerDay
            monthlyYield := monthlyYield
            capitalRequired := capitalRequired
            assignedReturn := assignedReturn
            assignedAnnualizedReturn := assignedReturn * (365 / days)
            effectivePrice := K - premium }

end App

namespace Chart

/-- The long/short stance of `PLChart` (src/chart.js). -/
inductive Position where
  | long
  | short
  deriving DecidableEq

/-- `const multiplier = position === 'long' ? 1 : -1` (chart.js line 85). -/
def multiplier : Position → ℝ
  | .long => 1
  | .short => -1

/-- `const contractSize = 100` (chart.js line 86). -/
def contractSize : ℝ := 100

/-- `const minPrice = Math.max(0.01, S * 0.5)` (chart.js line 89). -/
noncomputable def minPrice (S : ℝ) : ℝ := max 0.01 (S * 0.5)

/-- `const maxPrice = S * 1.5` (chart.js line 90). -/
def maxPrice (S : ℝ) : ℝ := S * 1.5

/-- `const step = (maxPrice - minPrice) / 200` (chart.js line 91). -/
noncomputable def sampleStep (S : ℝ) : ℝ := (maxPrice S - minPrice S) / 200

/-- The underlying prices visited by the loop
`for (let price = minPrice; price <= maxPrice; price += step)`
(chart.js line 96), under exact real arithmetic: when
`minPrice <= maxPrice` the loop visits `minPrice + i*step` for
`i = 0, ..., 200` (the last point equals `maxPrice`); when
`maxPrice < minPrice` the loop guard fails at once and nothing is
sampled. -/
noncomputable def samplePoints (S : ℝ) : List ℝ :=
  if maxPrice S < minPrice S then []
  else (List.range 201).map (fun i : ℕ => minPrice S + (i : ℝ) * sampleStep S)

/-- The per-sample at-expiration P/L (chart.js lines 98-104):
`(max(0, price-K) - premium) * multiplier` for calls,
`(max(0, K-price) - premium) * multiplier` for puts, then
`expiryPL *= contractSize * contracts`. -/
noncomputable def expiryPL (ty : OptionType) (K premium contracts : ℝ)
    (pos : Position) (pr : ℝ) : ℝ :=
  ((match ty with
    | .call => max 0 (pr - K)
    | .put => max 0 (K - pr)) - premium) * multiplier pos * (contractSize * contracts)

/-- The per-sample at-valuation-date P/L (chart.js lines 108-113):
`(BlackScholes.price(type, price, K, T, r, sigma, q) - premium) * multiplier`
then `*= contractSize * contracts`; only emitted when `T > 0`. -/
noncomputable def currentPL (ty : OptionType) (K T r sigma q premium contracts : ℝ)
    (pos : Position) (pr : ℝ) : ℝ :=
  (BlackScholes.price ty pr K T r sigma q - premium) * multiplier pos
    * (contractSize * contracts)

/-- A JS number that may be `Infinity`: the chart stores `Infinity` for
unbounded max profit/loss (chart.js lines 128, 132), a value distinct
from every finite number. -/
inductive PLBound where
  | val (x : ℝ)
  | inf

/-- The record returned by `PLChart.calculatePLData` (chart.js lines 144-152). -/
structure PLData where
  expiryData : List (ℝ × ℝ)
  currentData : List (ℝ × ℝ)
  breakeven : ℝ
  maxProfit : PLBound
  maxLoss : PLBound
  currentPrice : ℝ
  strike : ℝ

/-- `PLChart.calculatePLData` (chart.js lines 84-153).  The breakeven
computation repeats the same ternary in both `position` branches
(chart.js lines 117-122), mirrored here.  Max profit/loss follow the
kind-by-position table of lines 124-142, with `Infinity` as
`PLBound.inf`. -/
noncomputable def calculatePLData (ty : OptionType) (S K T r sigma q premium contracts : ℝ)
    (pos : Position) : PLData :=
  { expiryData := (samplePoints S).map
      (fun pr => (pr, expiryPL ty K premium contracts pos pr))
    currentData :=
      if 0 < T then
        (samplePoints S).map
          (fun pr => (pr, currentPL ty K T r sigma q premium contracts pos pr))
      else []
    breakeven :=
      match pos with
      | .long => match ty with
        | .call => K + premium
        | .put => K - premium
      | .short => match ty with
        | .call => K + premium
        | .put => K - premium
    maxProfit :=
      match ty, pos with
      | .call, .long => .inf
      | .call, .short => .val (premium * contractSize * contracts)
      | .put, .long => .val ((K - premium) * contractSize * contracts)
      | .put, .short => .val (premium * contractSize * contracts)
    maxLoss :=
      match ty, pos with
      | .call, .long => .val (premium * contractSize * contracts)
      | .call, .short => .inf
      | .put, .long => .val (premium * contractSize * contracts)
      | .put, .short => .val ((K - premium) * contractSize * contracts)
    currentPrice := S
    strike := K }

end Chart

/-! ## Analysis of the Abramowitz-Stegun polynomial -/

namespace BlackScholes

/-- Expanded form of the Horner quintic. -/
lemma polyA_expand (t : ℝ) :
    polyA t = a5 * t ^ 5 + a4 * t ^ 4 + a3 * t ^ 3 + a2 * t ^ 2 + a1 * t := by
  unfold polyA
  ring

/-- The quintic is nonnegative on `[0, ∞)`. -/
lemma polyA_nonneg {t : ℝ} (h0 : 0 ≤ t) : 0 ≤ polyA t := by
  have hinner : 0 ≤ 1.061405429 * t ^ 2 - 1.453152027 * t + 0.501413741 := by
    nlinarith [sq_nonneg (2.122810858 * t - 1.453152027)]
  have hquad : 0 ≤ 0.254829592 - 0.284496736 * t + 0.92 * t ^ 2 := by
    nlinarith [sq_nonneg (1.84 * t - 0.284496736)]
  have hQ : 0 ≤ 0.254829592 - 0.284496736 * t + 1.421413741 * t ^ 2
      - 1.453152027 * t ^ 3 + 1.061405429 * t ^ 4 := by
    nlinarith [mul_nonneg (mul_nonneg h0 h0) hinner]
  rw [polyA_expand]
  unfold a1 a2 a3 a4 a5
  nlinarith [mul_nonneg h0 hQ]

/-- The quintic stays at most `1` on `[0, 1]`; the slack at `t = 1` is
exactly `10⁻⁹`. -/
lemma polyA_le_one {t : ℝ} (h0 : 0 ≤ t) (h1 : t ≤ 1) : polyA t ≤ 1 := by
  have hC : 0 ≤ 1.061405429 * t ^ 4 - 0.391746598 * t ^ 3 + 1.029667143 * t ^ 2
      + 0.745170407 * t + 0.999999999 := by
    nlinarith [mul_nonneg (mul_nonneg h0 h0) (by linarith : (0:ℝ) ≤ 1.029667143 - 0.391746598 * t),
      mul_nonneg (mul_nonneg (mul_nonneg h0 h0) h0) h0]
  have hfact : 1 - polyA t
      = (1 - t) * (1.061405429 * t ^ 4 - 0.391746598 * t ^ 3 + 1.029667143 * t ^ 2
          + 0.745170407 * t + 0.999999999) + 0.000000001 := by
    rw [polyA_expand]
    unfold a1 a2 a3 a4 a5
    ring
  nlinarith [mul_nonneg (by linarith : (0:ℝ) ≤ 1 - t) hC]

/-- Derivative of the quintic. -/
lemma polyA_hasDerivAt (t : ℝ) :
    HasDerivAt polyA
      (5 * a5 * t ^ 4 + 4 * a4 * t ^ 3 + 3 * a3 * t ^ 2 + 2 * a2 * t + a1) t := by
  have h : HasDerivAt (fun s : ℝ =>
      a5 * s ^ 5 + a4 * s ^ 4 + a3 * s ^ 3 + a2 * s ^ 2 + a1 * s)
      (5 * a5 * t ^ 4 + 4 * a4 * t ^ 3 + 3 * a3 * t ^ 2 + 2 * a2 * t + a1) t := by
    have h5 := (hasDerivAt_pow 5 t).const_mul a5
    have h4 := (hasDerivAt_pow 4 t).const_mul a4
    have h3 := (hasDerivAt_pow 3 t).const_mul a3
    have h2 := (hasDerivAt_pow 2 t).const_mul a2
    have h1 := (hasDerivAt_pow 1 t).const_mul a1
    have := (((h5.add h4).add h3).add h2).add h1
    convert this using 1
    · funext s
      ring
    · push_cast
      ring
  have hfun : polyA = fun s : ℝ =>
      a5 * s ^ 5 + a4 * s ^ 4 + a3 * s ^ 3 + a2 * s ^ 2 + a1 * s := by
    funext s
    exact polyA_expand s
  rw [hfun]
  exact h

/-- The derivative of the quintic is nonnegative on `[0, ∞)`. -/
lemma polyA_deriv_nonneg {t : ℝ} (h0 : 0 ≤ t) :
    0 ≤ 5 * a5 * t ^ 4 + 4 * a4 * t ^ 3 + 3 * a3 * t ^ 2 + 2 * a2 * t + a1 := by
  have hinner : 0 ≤ 5.307027145 * t ^ 2 - 5.812608108 * t + 1.664241223 := by
    nlinarith [sq_nonneg (10.61405429 * t - 5.812608108)]
  have hquad : 0 ≤ 2.6 * t ^ 2 - 0.568993472 * t + 0.254829592 := by
    nlinarith [sq_nonneg (5.2 * t - 0.568993472)]
  unfold a1 a2 a3 a4 a5
  nlinarith [mul_nonneg (mul_nonneg h0 h0) hinner]

/-- The quintic is monotone on `[0, 1]`. -/
lemma polyA_monotoneOn : MonotoneOn polyA (Set.Icc (0:ℝ) 1) := by
  apply monotoneOn_of_deriv_nonneg (convex_Icc 0 1)
  · exact fun t _ => ((polyA_hasDerivAt t).continuousAt).continuousWithinAt
  · intro t _
    exact (polyA_hasDerivAt t).differentiableAt.differentiableWithinAt
  · intro t ht
    rw [interior_Icc] at ht
    rw [(polyA_hasDerivAt t).deriv]
    exact polyA_deriv_nonneg ht.1.le

lemma polyA_mono {s t : ℝ} (h0 : 0 ≤ s) (hst : s ≤ t) (h1 : t ≤ 1) :
    polyA s ≤ polyA t :=
  polyA_monotoneOn ⟨h0, hst.trans h1⟩ ⟨h0.trans hst, h1⟩ hst

end BlackScholes

namespace BlackScholes

/-- The quantity `poly(t) * exp(-x'*x')` of `normCDF` as a function of the
rescaled argument `x' = |x|/sqrt 2`. -/
noncomputable def gfun (u : ℝ) : ℝ :=
  polyA (1 / (1 + p * u)) * Real.exp (-(u * u))

/-- `normCDF` in terms of `gfun`. -/
lemma normCDF_eq (x : ℝ) :
    normCDF x = if x < 0 then gfun (|x| / Real.sqrt 2) / 2
      else 1 - gfun (|x| / Real.sqrt 2) / 2 := by
  simp only [normCDF, gfun]
  split_ifs with h <;> ring

lemma p_pos : (0:ℝ) < p := by norm_num [p]

lemma one_add_p_pos {u : ℝ} (hu : 0 ≤ u) : 0 < 1 + p * u := by
  nlinarith [mul_nonneg p_pos.le hu]

lemma tfrac_pos {u : ℝ} (hu : 0 ≤ u) : 0 < 1 / (1 + p * u) :=
  one_div_pos.mpr (one_add_p_pos hu)

lemma tfrac_le_one {u : ℝ} (hu : 0 ≤ u) : 1 / (1 + p * u) ≤ 1 := by
  rw [div_le_one (one_add_p_pos hu)]
  nlinarith [mul_nonneg p_pos.le hu]

lemma gfun_nonneg {u : ℝ} (hu : 0 ≤ u) : 0 ≤ gfun u :=
  mul_nonneg (polyA_nonneg (tfrac_pos hu).le) (Real.exp_nonneg _)

lemma gfun_le_one {u : ℝ} (hu : 0 ≤ u) : gfun u ≤ 1 := by
  have hA := polyA_le_one (tfrac_pos hu).le (tfrac_le_one hu)
  have hE : Real.exp (-(u * u)) ≤ 1 :=
    Real.exp_le_one_iff.mpr (by nlinarith [mul_nonneg hu hu])
  have := mul_le_mul hA hE (Real.exp_nonneg _) zero_le_one
  simpa [gfun] using this

lemma gfun_antitone {u v : ℝ} (hu : 0 ≤ u) (huv : u ≤ v) : gfun v ≤ gfun u := by
  have hv : 0 ≤ v := hu.trans huv
  have ht : 1 / (1 + p * v) ≤ 1 / (1 + p * u) :=
    one_div_le_one_div_of_le (one_add_p_pos hu)
      (by nlinarith [mul_le_mul_of_nonneg_left huv p_pos.le])
  have hA := polyA_mono (tfrac_pos hv).le ht (tfrac_le_one hu)
  have hE : Real.exp (-(v * v)) ≤ Real.exp (-(u * u)) :=
    Real.exp_le_exp.mpr (by nlinarith)
  exact mul_le_mul hA hE (Real.exp_nonneg _) (polyA_nonneg (tfrac_pos hu).le)

lemma normCDF_nonneg (x : ℝ) : 0 ≤ normCDF x := by
  rw [normCDF_eq]
  split_ifs with h
  · have := gfun_nonneg (u := |x| / Real.sqrt 2) (by positivity)
    linarith
  · have := gfun_le_one (u := |x| / Real.sqrt 2) (by positivity)
    linarith

lemma normCDF_le_one (x : ℝ) : normCDF x ≤ 1 := by
  rw [normCDF_eq]
  split_ifs with h
  · have := gfun_le_one (u := |x| / Real.sqrt 2) (by positivity)
    linarith
  · have := gfun_nonneg (u := |x| / Real.sqrt 2) (by positivity)
    linarith

/-- The sign symmetry of the approximation: away from `x = 0` the code's
`normCDF` satisfies `Φ(x) + Φ(-x) = 1` exactly. -/
lemma normCDF_add_neg {x : ℝ} (hx : x ≠ 0) : normCDF x + normCDF (-x) = 1 := by
  rcases hx.lt_or_lt with h | h
  · rw [normCDF_eq x, normCDF_eq (-x), if_pos h, if_neg (by linarith), abs_neg]
    ring
  · rw [normCDF_eq x, normCDF_eq (-x), if_neg (by linarith), if_pos (by linarith), abs_neg]
    ring

/-- `normCDF` is monotone. -/
lemma normCDF_mono : Monotone normCDF := by
  intro x y hxy
  rcases lt_or_le x 0 with hx | hx
  · rcases lt_or_le y 0 with hy | hy
    · rw [normCDF_eq x, normCDF_eq y, if_pos hx, if_pos hy]
      have : gfun (|x| / Real.sqrt 2) ≤ gfun (|y| / Real.sqrt 2) := by
        apply gfun_antitone (by positivity)
        have h2 : (0:ℝ) < Real.sqrt 2 := by positivity
        rw [div_le_div_right h2, abs_of_neg hy, abs_of_neg hx]
        linarith
      linarith
    · rw [normCDF_eq x, normCDF_eq y, if_pos hx, if_neg (not_lt.mpr hy)]
      have h1 := gfun_le_one (u := |x| / Real.sqrt 2) (by positivity)
      have h2 := gfun_le_one (u := |y| / Real.sqrt 2) (by positivity)
      linarith
  · rw [normCDF_eq x, normCDF_eq y, if_neg (not_lt.mpr hx),
      if_neg (not_lt.mpr (hx.trans hxy))]
    have : gfun (|y| / Real.sqrt 2) ≤ gfun (|x| / Real.sqrt 2) := by
      apply gfun_antitone (by positivity)
      have h2 : (0:ℝ) < Real.sqrt 2 := by positivity
      rw [div_le_div_right h2, abs_of_nonneg hx, abs_of_nonneg (hx.trans hxy)]
      exact hxy
    linarith

/-- The exact value of the approximation at `0`: one half plus the
`5·10⁻¹⁰` artifact of the sign convention. -/
lemma normCDF_zero : normCDF 0 = 1000000001 / 2000000000 := by
  rw [normCDF_eq, if_neg (lt_irrefl 0), abs_zero, zero_div]
  unfold gfun
  norm_num [polyA, a1, a2, a3, a4, a5, p, Real.exp_zero]

end BlackScholes

/-! ## Evaluation helpers for concrete witnesses -/

lemma d1_atm_eval : BlackScholes.d1 100 100 1 0 (1/5) 0 = 1/10 := by
  unfold BlackScholes.d1
  norm_num [Real.sqrt_one, Real.log_one]

lemma d2_atm_eval : BlackScholes.d2 100 100 1 0 (1/5) 0 = -(1/10) := by
  unfold BlackScholes.d2
  rw [d1_atm_eval, Real.sqrt_one]
  norm_num

/-! ## Claim C1 -/

/-- C1 counterexample: the claim says that for `T < 0` the pricing
operations fail with an `InvalidInput` error rather than returning a
number.  In the code there is no validation at all: at `T = -1` (with
`S = 100 > 0`, `K = 90 > 0`, `sigma = 1/5 > 0`) `price`, `delta`,
`gamma` and `probITM` all return plain numbers through the `T <= 0`
branch. -/
theorem pricing_returns_value_at_negative_T :
    BlackScholes.price .call 100 90 (-1) 0 (1/5) 0 = 10 ∧
    BlackScholes.delta .call 100 90 (-1) 0 (1/5) 0 = 1 ∧
    BlackScholes.gamma 100 90 (-1) 0 (1/5) 0 = 0 ∧
    BlackScholes.probITM .call 100 90 (-1) 0 (1/5) 0 = 1 := by
  norm_num [BlackScholes.price, BlackScholes.delta, BlackScholes.gamma, BlackScholes.probITM]

/-- C1 (amended): the pricing operations perform no input validation and
never fail.  For every `T ≤ 0` — `T = 0` as the claim says, but also
every negative `T` — all of them take the intrinsic-value/boundary
branch; non-positive `S`, `K` or `sigma` are not rejected either (the
formulas are simply evaluated). -/
theorem pricing_boundary_branch_for_nonpositive_T
    (ty : OptionType) (S K T r sigma q : ℝ) (hT : T ≤ 0) :
    BlackScholes.price ty S K T r sigma q = BlackScholes.intrinsicValue ty S K ∧
    BlackScholes.delta .call S K T r sigma q = (if K < S then 1 else 0) ∧
    BlackScholes.delta .put S K T r sigma q = (if S < K then -1 else 0) ∧
    BlackScholes.gamma S K T r sigma q = 0 ∧
    BlackScholes.theta ty S K T r sigma q = 0 ∧
    BlackScholes.vega S K T r sigma q = 0 ∧
    BlackScholes.rho ty S K T r sigma q = 0 ∧
    BlackScholes.probITM .call S K T r sigma q = (if K < S then 1 else 0) ∧
    BlackScholes.probITM .put S K T r sigma q = (if S < K then 1 else 0) := by
  cases ty <;>
    simp [BlackScholes.price, BlackScholes.delta, BlackScholes.gamma, BlackScholes.theta,
      BlackScholes.vega, BlackScholes.rho, BlackScholes.probITM, BlackScholes.intrinsicValue, hT]

/-- C1 witness: the amended statement at `T = -1`, `S = 100`, `K = 90`. -/
theorem pricing_boundary_branch_for_nonpositive_T_witness :
    (-1 : ℝ) ≤ 0 ∧
    (BlackScholes.price .put 100 90 (-1) 0 (1/5) 0 = BlackScholes.intrinsicValue .put 100 90 ∧
     BlackScholes.delta .call 100 90 (-1) 0 (1/5) 0 = (if (90:ℝ) < 100 then 1 else 0) ∧
     BlackScholes.delta .put 100 90 (-1) 0 (1/5) 0 = (if (100:ℝ) < 90 then -1 else 0) ∧
     BlackScholes.gamma 100 90 (-1) 0 (1/5) 0 = 0 ∧
     BlackScholes.theta .put 100 90 (-1) 0 (1/5) 0 = 0 ∧
     BlackScholes.vega 100 90 (-1) 0 (1/5) 0 = 0 ∧
     BlackScholes.rho .put 100 90 (-1) 0 (1/5) 0 = 0 ∧
     BlackScholes.probITM .call 100 90 (-1) 0 (1/5) 0 = (if (90:ℝ) < 100 then 1 else 0) ∧
     BlackScholes.probITM .put 100 90 (-1) 0 (1/5) 0 = (if (100:ℝ) < 90 then 1 else 0)) :=
  ⟨by norm_num,
    pricing_boundary_branch_for_nonpositive_T .put 100 90 (-1) 0 (1/5) 0 (by norm_num)⟩

/-! ## Claim C3 -/

/-- C3: at `T = 0` exactly, for every `S > 0` and `K > 0`, the price is
the intrinsic value, delta is the `1/0` (call) or `-1/0` (put) boundary
value by the sign of `S - K`, and gamma, theta, vega and rho are all
exactly `0`. -/
theorem expiry_price_and_greeks (S K r sigma q : ℝ) (hS : 0 < S) (hK : 0 < K) :
    BlackScholes.price .call S K 0 r sigma q = BlackScholes.intrinsicValue .call S K ∧
    BlackScholes.price .put S K 0 r sigma q = BlackScholes.intrinsicValue .put S K ∧
    BlackScholes.delta .call S K 0 r sigma q = (if K < S then 1 else 0) ∧
    BlackScholes.delta .put S K 0 r sigma q = (if S < K then -1 else 0) ∧
    BlackScholes.gamma S K 0 r sigma q = 0 ∧
    BlackScholes.theta .call S K 0 r sigma q = 0 ∧
    BlackScholes.theta .put S K 0 r sigma q = 0 ∧
    BlackScholes.vega S K 0 r sigma q = 0 ∧
    BlackScholes.rho .call S K 0 r sigma q = 0 ∧
    BlackScholes.rho .put S K 0 r sigma q = 0 := by
  simp [BlackScholes.price, BlackScholes.delta, BlackScholes.gamma, BlackScholes.theta,
    BlackScholes.vega, BlackScholes.rho, BlackScholes.intrinsicValue]

/-- C3 witness at `S = 100`, `K = 90`. -/
theorem expiry_price_and_greeks_witness :
    (0:ℝ) < 100 ∧ (0:ℝ) < 90 ∧
    (BlackScholes.price .call 100 90 0 0 (1/5) 0 = BlackScholes.intrinsicValue .call 100 90 ∧
     BlackScholes.price .put 100 90 0 0 (1/5) 0 = BlackScholes.intrinsicValue .put 100 90 ∧
     BlackScholes.delta .call 100 90 0 0 (1/5) 0 = (if (90:ℝ) < 100 then 1 else 0) ∧
     BlackScholes.delta .put 100 90 0 0 (1/5) 0 = (if (100:ℝ) < 90 then -1 else 0) ∧
     BlackScholes.gamma 100 90 0 0 (1/5) 0 = 0 ∧
     BlackScholes.theta .call 100 90 0 0 (1/5) 0 = 0 ∧
     BlackScholes.theta .put 100 90 0 0 (1/5) 0 = 0 ∧
     BlackScholes.vega 100 90 0 0 (1/5) 0 = 0 ∧
     BlackScholes.rho .call 100 90 0 0 (1/5) 0 = 0 ∧
     BlackScholes.rho .put 100 90 0 0 (1/5) 0 = 0) :=
  ⟨by norm_num, by norm_num, expiry_price_and_greeks 100 90 0 (1/5) 0 (by norm_num) (by norm_num)⟩

/-! ## Claim C4 -/

/-- C4 counterexample: with identical parameters and `T = 0`, `S = K`,
the code returns `0` for both in-the-money probabilities, so their sum
is `0`, not `1`. -/
theorem probITM_sum_not_one_at_the_money_expiry :
    BlackScholes.probITM .call 100 100 0 0 (1/5) 0
      + BlackScholes.probITM .put 100 100 0 0 (1/5) 0 ≠ 1 := by
  norm_num [BlackScholes.probITM]

/-- C4 (amended): with identical parameters, `probITM(call) + probITM(put) = 1`
holds provided the at-expiry case is not exactly at the money (`T = 0 → S ≠ K`)
and the live case has `d2 ≠ 0` (at `d2 = 0` the sign convention of the
approximation makes the sum `1 + 10⁻⁹`). -/
theorem probITM_complementary (S K T r sigma q : ℝ) (hT : 0 ≤ T)
    (hSK : T = 0 → S ≠ K) (hd : 0 < T → BlackScholes.d2 S K T r sigma q ≠ 0) :
    BlackScholes.probITM .call S K T r sigma q
      + BlackScholes.probITM .put S K T r sigma q = 1 := by
  rcases hT.eq_or_lt with h | h
  · rw [← h]
    rcases lt_trichotomy S K with hlt | heq | hlt
    · simp [BlackScholes.probITM, hlt, lt_asymm hlt]
    · exact absurd heq (hSK h.symm)
    · simp [BlackScholes.probITM, hlt, lt_asymm hlt]
  · simp only [BlackScholes.probITM, if_neg (not_le.mpr h)]
    exact BlackScholes.normCDF_add_neg (hd h)

/-- C4 witness at `S = K = 100`, `T = 1`, `r = 0`, `sigma = 1/5`, `q = 0`,
where `d2 = -1/10 ≠ 0`. -/
theorem probITM_complementary_witness :
    (0:ℝ) ≤ 1 ∧
    BlackScholes.probITM .call 100 100 1 0 (1/5) 0
      + BlackScholes.probITM .put 100 100 1 0 (1/5) 0 = 1 :=
  ⟨by norm_num,
    probITM_complementary 100 100 1 0 (1/5) 0 (by norm_num)
      (fun h => absurd h (by norm_num))
      (fun _ => by rw [d2_atm_eval]; norm_num)⟩

/-! ## Claim C5 -/

/-- C5 counterexample: the first `calculateYieldAnalysis` variant
(src/app.js lines 301-378) has no premium guard: at `premium = -1` it
computes numeric yield metrics from the formulas instead of the blank
sentinel state, while the guarded variant returns the sentinel. -/
theorem first_yield_variant_computes_on_nonpositive_premium :
    (App.calculateYieldAnalysisV1 100 100 30 (-1) .put).periodYield = -(1/100) ∧
    (App.calculateYieldAnalysisV1 100 100 30 (-1) .put).assignedReturn = -(1/100) ∧
    App.calculateYieldAnalysisV2 100 100 30 (-1) .put = none := by
  refine ⟨?_, ?_, ?_⟩ <;>
    norm_num [App.calculateYieldAnalysisV1, App.calculateYieldAnalysisV2]

/-- C5 (amended): only the guarded variants of the yield analyzer
(the second src/app.js variant and the src/unnamed/part_000 copy) return
the undefined sentinel state for `premium ≤ 0`; the first src/app.js
variant computes the yield formulas regardless of the premium sign. -/
theorem guarded_yield_variant_returns_sentinel (S K days premium : ℝ)
    (ty : OptionType) (hp : premium ≤ 0) :
    App.calculateYieldAnalysisV2 S K days premium ty = none := by
  simp [App.calculateYieldAnalysisV2, hp]

/-- C5 witness at `premium = -1`. -/
theorem guarded_yield_variant_returns_sentinel_witness :
    (-1 : ℝ) ≤ 0 ∧ App.calculateYieldAnalysisV2 100 100 30 (-1) .call = none :=
  ⟨by norm_num, guarded_yield_variant_returns_sentinel 100 100 30 (-1) .call (by norm_num)⟩

/-! ## Claim C6 -/

/-- C6: for `S > 0`, `K > 0`, `daysToExpiry ≥ 1`, `premium > 0`, the
yield analysis returns exactly the claimed formulas (both the unguarded
first variant and, past its guard, the guarded variant agree). -/
theorem yield_metric_formulas (S K days premium : ℝ) (ty : OptionType)
    (hS : 0 < S) (hK : 0 < K) (hdays : 1 ≤ days) (hp : 0 < premium) :
    (App.calculateYieldAnalysisV1 S K days premium ty).periodYield = premium / S ∧
    (App.calculateYieldAnalysisV1 S K days premium ty).annualizedYield
      = (App.calculateYieldAnalysisV1 S K days premium ty).periodYield * (365 / days) ∧
    (App.calculateYieldAnalysisV1 S K days premium ty).premiumPerDay = premium / days ∧
    (App.calculateYieldAnalysisV1 S K days premium ty).monthlyYield
      = (App.calculateYieldAnalysisV1 S K days premium ty).annualizedYield / 12 ∧
    (App.calculateYieldAnalysisV1 S K days premium ty).capitalRequired
      = (match ty with | .call => S * 100 | .put => K * 100) ∧
    (App.calculateYieldAnalysisV1 S K days premium ty).assignedReturn
      = (match ty with | .call => (premium + (K - S)) / S | .put => premium / K) ∧
    (App.calculateYieldAnalysisV1 S K days premium ty).effectivePrice
      = (match ty with | .call => K + premium | .put => K - premium) ∧
    (App.calculateYieldAnalysisV1 S K days premium ty).assignedAnnualizedReturn
      = (App.calculateYieldAnalysisV1 S K days premium ty).assignedReturn * (365 / days) ∧
    App.calculateYieldAnalysisV2 S K days premium ty
      = some (App.calculateYieldAnalysisV1 S K days premium ty) := by
  cases ty <;>
    simp [App.calculateYieldAnalysisV1, App.calculateYieldAnalysisV2, not_le.mpr hp]

/-- C6 witness: the spec's own yield example, `S = 100`, `K = 100`,
`days = 30`, `premium = 2.49`, put. -/
theorem yield_metric_formulas_witness :
    (App.calculateYieldAnalysisV1 100 100 30 (249/100) .put).periodYield = (249/100) / 100 ∧
    (App.calculateYieldAnalysisV1 100 100 30 (249/100) .put).annualizedYield
      = (App.calculateYieldAnalysisV1 100 100 30 (249/100) .put).periodYield * (365 / 30) ∧
    (App.calculateYieldAnalysisV1 100 100 30 (249/100) .put).premiumPerDay = (249/100) / 30 ∧
    (App.calculateYieldAnalysisV1 100 100 30 (249/100) .put).monthlyYield
      = (App.calculateYieldAnalysisV1 100 100 30 (249/100) .put).annualizedYield / 12 ∧
    (App.calculateYieldAnalysisV1 100 100 30 (249/100) .put).capitalRequired = 100 * 100 ∧
    (App.calculateYieldAnalysisV1 100 100 30 (249/100) .put).assignedReturn = (249/100) / 100 ∧
    (App.calculateYieldAnalysisV1 100 100 30 (249/100) .put).effectivePrice = 100 - 249/100 ∧
    (App.calculateYieldAnalysisV1 100 100 30 (249/100) .put).assignedAnnualizedReturn
      = (App.calculateYieldAnalysisV1 100 100 30 (249/100) .put).assignedReturn * (365 / 30) ∧
    App.calculateYieldAnalysisV2 100 100 30 (249/100) .put
      = some (App.calculateYieldAnalysisV1 100 100 30 (249/100) .put) := by
  simpa using yield_metric_formulas 100 100 30 (249/100) .put
    (by norm_num) (by norm_num) (by norm_num) (by norm_num)

/-! ## Claim C7 -/

/-- C7: the max profit/loss of the payoff data follow the kind-by-position
table, with unbounded outcomes represented by the distinguished
infinity `Chart.PLBound.inf`, which is distinct from every finite value. -/
theorem payoff_max_profit_loss_table (S K T r sigma q premium contracts : ℝ)
    (hK : 0 < K) (hp : 0 < premium) (hc : 1 ≤ contracts) :
    (Chart.calculatePLData .call S K T r sigma q premium contracts .long).maxProfit
      = Chart.PLBound.inf ∧
    (Chart.calculatePLData .call S K T r sigma q premium contracts .long).maxLoss
      = Chart.PLBound.val (premium * 100 * contracts) ∧
    (Chart.calculatePLData .call S K T r sigma q premium contracts .short).maxProfit
      = Chart.PLBound.val (premium * 100 * contracts) ∧
    (Chart.calculatePLData .call S K T r sigma q premium contracts .short).maxLoss
      = Chart.PLBound.inf ∧
    (Chart.calculatePLData .put S K T r sigma q premium contracts .long).maxProfit
      = Chart.PLBound.val ((K - premium) * 100 * contracts) ∧
    (Chart.calculatePLData .put S K T r sigma q premium contracts .long).maxLoss
      = Chart.PLBound.val (premium * 100 * contracts) ∧
    (Chart.calculatePLData .put S K T r sigma q premium contracts .short).maxProfit
      = Chart.PLBound.val (premium * 100 * contracts) ∧
    (Chart.calculatePLData .put S K T r sigma q premium contracts .short).maxLoss
      = Chart.PLBound.val ((K - premium) * 100 * contracts) ∧
    (∀ x : ℝ, Chart.PLBound.val x ≠ Chart.PLBound.inf) := by
  refine ⟨rfl, rfl, rfl, rfl, rfl, rfl, rfl, rfl, fun x => by simp⟩

/-- C7 witness: the spec's payoff example, short put with `K = 100`,
`premium = 2.49`, one contract. -/
theorem payoff_max_profit_loss_table_witness :
    (0:ℝ) < 100 ∧ (0:ℝ) < 249/100 ∧ (1:ℝ) ≤ 1 ∧
    (Chart.calculatePLData .put 100 100 0 0 (1/5) 0 (249/100) 1 .short).maxProfit
      = Chart.PLBound.val (249/100 * 100 * 1) ∧
    (Chart.calculatePLData .put 100 100 0 0 (1/5) 0 (249/100) 1 .short).maxLoss
      = Chart.PLBound.val ((100 - 249/100) * 100 * 1) :=
  ⟨by norm_num, by norm_num, le_refl 1,
    (payoff_max_profit_loss_table 100 100 0 0 (1/5) 0 (249/100) 1
      (by norm_num) (by norm_num) (le_refl 1)).2.2.2.2.2.2.1,
    (payoff_max_profit_loss_table 100 100 0 0 (1/5) 0 (249/100) 1
      (by norm_num) (by norm_num) (le_refl 1)).2.2.2.2.2.2.2.1⟩

/-! ## Claim C2 -/

/-- C2 (amended): put-call parity holds exactly (so in particular within
every positive tolerance) for valid terms whenever `d1 ≠ 0` and `d2 ≠ 0`;
the sign convention `x < 0 ? -1 : 1` of `normCDF` makes `Φ(0)` equal
`1/2 + 5·10⁻¹⁰` rather than `1/2`, so at `d1 = 0` (or `d2 = 0`) the
parity defect is `S·e^(-qT)·10⁻⁹` (resp. `K·e^(-rT)·10⁻⁹`), which
exceeds the claimed `10⁻⁶` for large enough `S` or `K`. -/
theorem put_call_parity_exact_off_zero (S K T r sigma q : ℝ)
    (hS : 0 < S) (hK : 0 < K) (hT : 0 < T) (hsig : 0 < sigma)
    (hd1 : BlackScholes.d1 S K T r sigma q ≠ 0)
    (hd2 : BlackScholes.d2 S K T r sigma q ≠ 0) :
    BlackScholes.price .call S K T r sigma q - BlackScholes.price .put S K T r sigma q
      = S * Real.exp (-q * T) - K * Real.exp (-r * T) := by
  have h1 := BlackScholes.normCDF_add_neg hd1
  have h2 := BlackScholes.normCDF_add_neg hd2
  simp only [BlackScholes.price, if_neg (not_le.mpr hT)]
  linear_combination (S * Real.exp (-q * T)) * h1 - (K * Real.exp (-r * T)) * h2

/-- C2 witness at `S = K = 100`, `T = 1`, `r = 0`, `sigma = 1/5`, `q = 0`,
where `d1 = 1/10` and `d2 = -1/10`. -/
theorem put_call_parity_exact_off_zero_witness :
    (0:ℝ) < 100 ∧ (0:ℝ) < 1 ∧ (0:ℝ) < 1/5 ∧
    BlackScholes.price .call 100 100 1 0 (1/5) 0 - BlackScholes.price .put 100 100 1 0 (1/5) 0
      = 100 * Real.exp (-0 * 1) - 100 * Real.exp (-0 * 1) :=
  ⟨by norm_num, by norm_num, by norm_num,
    put_call_parity_exact_off_zero 100 100 1 0 (1/5) 0 (by norm_num) (by norm_num)
      (by norm_num) (by norm_num)
      (by rw [d1_atm_eval]; norm_num) (by rw [d2_atm_eval]; norm_num)⟩

/-- C2 counterexample: at the valid terms `S = 10⁷ > 0`, `K = 10⁷·e > 0`,
`T = 2`, `r = q = 0`, `sigma = 1`, the code's `d1` is exactly `0` and the
put-call parity defect is `S·10⁻⁹ = 1/100`, far above the claimed `10⁻⁶`
tolerance. -/
theorem parity_deviation_exceeds_tolerance :
    (0:ℝ) < 10 ^ 7 ∧ (0:ℝ) < 10 ^ 7 * Real.exp 1 ∧
    |BlackScholes.price .call (10 ^ 7) (10 ^ 7 * Real.exp 1) 2 0 1 0
        - BlackScholes.price .put (10 ^ 7) (10 ^ 7 * Real.exp 1) 2 0 1 0
        - ((10 ^ 7) * Real.exp (-0 * 2) - (10 ^ 7 * Real.exp 1) * Real.exp (-0 * 2))|
      > 1 / 1000000 := by
  refine ⟨by norm_num, by positivity, ?_⟩
  have hd1 : BlackScholes.d1 (10 ^ 7) (10 ^ 7 * Real.exp 1) 2 0 1 0 = 0 := by
    unfold BlackScholes.d1
    rw [show (10 ^ 7 : ℝ) / (10 ^ 7 * Real.exp 1) = (Real.exp 1)⁻¹ by
      rw [div_mul_eq_div_div, div_self (by norm_num), one_div]]
    rw [Real.log_inv, Real.log_exp]
    norm_num
  have hd2 : BlackScholes.d2 (10 ^ 7) (10 ^ 7 * Real.exp 1) 2 0 1 0 = -Real.sqrt 2 := by
    unfold BlackScholes.d2
    rw [hd1]
    ring
  have hsum := BlackScholes.normCDF_add_neg
    (x := Real.sqrt 2) (by positivity)
  have hkey : BlackScholes.price .call (10 ^ 7) (10 ^ 7 * Real.exp 1) 2 0 1 0
      - BlackScholes.price .put (10 ^ 7) (10 ^ 7 * Real.exp 1) 2 0 1 0
      - ((10 ^ 7) * Real.exp (-0 * 2) - (10 ^ 7 * Real.exp 1) * Real.exp (-0 * 2))
      = 1 / 100 := by
    simp only [BlackScholes.price, if_neg (by norm_num : ¬(2:ℝ) ≤ 0)]
    rw [hd1, hd2, neg_neg, neg_zero, BlackScholes.normCDF_zero]
    rw [show Real.exp ((0:ℝ) * 2) = 1 by norm_num]
    linear_combination (-(10 ^ 7 * Real.exp 1)) * hsum
  rw [hkey, abs_of_pos (by norm_num : (0:ℝ) < 1 / 100)]
  norm_num

/-! ## Claim C9 -/

/-- C9 counterexample: put delta is not monotonic non-increasing in `S`.
At `T = 0`, `K = 100`, the code's put delta is `-1` at `S = 50` and `0`
at `S = 150`: it increases with `S`. -/
theorem put_delta_increases_in_S :
    BlackScholes.delta .put 50 100 0 0 (1/5) 0 = -1 ∧
    BlackScholes.delta .put 150 100 0 0 (1/5) 0 = 0 ∧
    ¬ BlackScholes.delta .put 150 100 0 0 (1/5) 0
        ≤ BlackScholes.delta .put 50 100 0 0 (1/5) 0 := by
  norm_num [BlackScholes.delta]

/-- C9 (amended): for valid inputs (`S > 0`, `K > 0`, `T ≥ 0`,
`sigma > 0` when `T > 0`, `q ≥ 0`), call delta lies in `[0, 1]` and put
delta in `[-1, 0]`; and for fixed `K`, `T`, `r`, `sigma`, `q` both call
delta and put delta are monotone non-decreasing in `S` (put delta rises
from `-1` toward `0`, it is not non-increasing). -/
theorem delta_bounds_and_monotonicity (S S' K T r sigma q : ℝ)
    (hS : 0 < S) (hS' : 0 < S') (hK : 0 < K) (hT : 0 ≤ T)
    (hsig : 0 < T → 0 < sigma) (hq : 0 ≤ q) :
    (0 ≤ BlackScholes.delta .call S K T r sigma q ∧
      BlackScholes.delta .call S K T r sigma q ≤ 1) ∧
    (-1 ≤ BlackScholes.delta .put S K T r sigma q ∧
      BlackScholes.delta .put S K T r sigma q ≤ 0) ∧
    (S ≤ S' →
      BlackScholes.delta .call S K T r sigma q ≤ BlackScholes.delta .call S' K T r sigma q ∧
      BlackScholes.delta .put S K T r sigma q ≤ BlackScholes.delta .put S' K T r sigma q) := by
  rcases hT.eq_or_lt with h0 | h0
  · rw [← h0]
    simp only [BlackScholes.delta, le_refl, if_true]
    refine ⟨?_, ?_, fun hSS' => ⟨?_, ?_⟩⟩
    · split_ifs <;> norm_num
    · split_ifs <;> norm_num
    · split_ifs <;> linarith
    · split_ifs <;> linarith
  · have hnle : ¬ T ≤ 0 := not_le.mpr h0
    have hsig' : 0 < sigma := hsig h0
    have hsqT : 0 < Real.sqrt T := Real.sqrt_pos.mpr h0
    have hE0 : 0 < Real.exp (-q * T) := Real.exp_pos _
    have hE1 : Real.exp (-q * T) ≤ 1 :=
      Real.exp_le_one_iff.mpr (by nlinarith)
    have hF0 := BlackScholes.normCDF_nonneg (BlackScholes.d1 S K T r sigma q)
    have hF1 := BlackScholes.normCDF_le_one (BlackScholes.d1 S K T r sigma q)
    have hF0' := BlackScholes.normCDF_nonneg (BlackScholes.d1 S' K T r sigma q)
    have hF1' := BlackScholes.normCDF_le_one (BlackScholes.d1 S' K T r sigma q)
    simp only [BlackScholes.delta, if_neg hnle]
    refine ⟨⟨?_, ?_⟩, ⟨?_, ?_⟩, fun hSS' => ?_⟩
    · exact mul_nonneg hE0.le hF0
    · nlinarith
    · nlinarith
    · nlinarith
    · have hd1le : BlackScholes.d1 S K T r sigma q ≤ BlackScholes.d1 S' K T r sigma q := by
        unfold BlackScholes.d1
        have hdiv : S / K ≤ S' / K := (div_le_div_right hK).mpr hSS'
        have hlog : Real.log (S / K) ≤ Real.log (S' / K) :=
          (Real.log_le_log_iff (by positivity) (by positivity)).mpr hdiv
        have hden : 0 < sigma * Real.sqrt T := mul_pos hsig' hsqT
        exact (div_le_div_right hden).mpr (by linarith)
      have hPhi := BlackScholes.normCDF_mono hd1le
      exact ⟨mul_le_mul_of_nonneg_left hPhi hE0.le,
        mul_le_mul_of_nonneg_left (by linarith) hE0.le⟩

/-- C9 witness at `S = 100`, `S' = 110`, `K = 100`, `T = 1`, `r = 0`,
`sigma = 1/5`, `q = 0`. -/
theorem delta_bounds_and_monotonicity_witness :
    (0 ≤ BlackScholes.delta .call 100 100 1 0 (1/5) 0 ∧
      BlackScholes.delta .call 100 100 1 0 (1/5) 0 ≤ 1) ∧
    (-1 ≤ BlackScholes.delta .put 100 100 1 0 (1/5) 0 ∧
      BlackScholes.delta .put 100 100 1 0 (1/5) 0 ≤ 0) ∧
    ((100:ℝ) ≤ 110 →
      BlackScholes.delta .call 100 100 1 0 (1/5) 0 ≤ BlackScholes.delta .call 110 100 1 0 (1/5) 0 ∧
      BlackScholes.delta .put 100 100 1 0 (1/5) 0 ≤ BlackScholes.delta .put 110 100 1 0 (1/5) 0) :=
  delta_bounds_and_monotonicity 100 110 100 1 0 (1/5) 0 (by norm_num) (by norm_num)
    (by norm_num) (by norm_num) (fun _ => by norm_num) (by norm_num)

/-! ## Claim C10 -/

/-- C10: for valid inputs, gamma and vega are non-negative, and they are
independent of the option kind: `calculateAll` returns identical `gamma`
and `vega` fields for a call and a put with the same numeric
parameters. -/
theorem gamma_vega_nonneg_and_kind_independent (S K T r sigma q : ℝ)
    (hS : 0 < S) (hK : 0 < K) (hT : 0 ≤ T) (hsig : 0 < T → 0 < sigma) :
    0 ≤ BlackScholes.gamma S K T r sigma q ∧
    0 ≤ BlackScholes.vega S K T r sigma q ∧
    (BlackScholes.calculateAll .call S K T r sigma q).gamma
      = (BlackScholes.calculateAll .put S K T r sigma q).gamma ∧
    (BlackScholes.calculateAll .call S K T r sigma q).vega
      = (BlackScholes.calculateAll .put S K T r sigma q).vega := by
  have hpdf : 0 ≤ BlackScholes.normPDF (BlackScholes.d1 S K T r sigma q) :=
    div_nonneg (Real.exp_nonneg _) (Real.sqrt_nonneg _)
  refine ⟨?_, ?_, rfl, rfl⟩
  · unfold BlackScholes.gamma
    split_ifs with h
    · exact le_refl 0
    · exact div_nonneg (mul_nonneg (Real.exp_nonneg _) hpdf)
        (mul_nonneg (mul_nonneg hS.le (hsig (not_le.mp h)).le) (Real.sqrt_nonneg T))
  · unfold BlackScholes.vega
    split_ifs with h
    · exact le_refl 0
    · exact div_nonneg
        (mul_nonneg (mul_nonneg (mul_nonneg hS.le (Real.exp_nonneg _)) hpdf)
          (Real.sqrt_nonneg T)) (by norm_num)

/-- C10 witness at `S = K = 100`, `T = 1`, `r = 0`, `sigma = 1/5`, `q = 0`. -/
theorem gamma_vega_nonneg_and_kind_independent_witness :
    0 ≤ BlackScholes.gamma 100 100 1 0 (1/5) 0 ∧
    0 ≤ BlackScholes.vega 100 100 1 0 (1/5) 0 ∧
    (BlackScholes.calculateAll .call 100 100 1 0 (1/5) 0).gamma
      = (BlackScholes.calculateAll .put 100 100 1 0 (1/5) 0).gamma ∧
    (BlackScholes.calculateAll .call 100 100 1 0 (1/5) 0).vega
      = (BlackScholes.calculateAll .put 100 100 1 0 (1/5) 0).vega :=
  gamma_vega_nonneg_and_kind_independent 100 100 1 0 (1/5) 0 (by norm_num) (by norm_num)
    (by norm_num) (fun _ => by norm_num)

/-! ## Claim C8 -/

/-- C8: every sample of the at-expiration leg lies in the interval
`[max(0.01, 0.5·S), 1.5·S]`, its profit/loss is
`(intrinsicValue(kind, price, K) - premium) · sign(position) · 100 · contracts`
with sign `+1` for long and `-1` for short, and the returned breakeven is
`K + premium` for calls and `K - premium` for puts regardless of the
position stance. -/
theorem payoff_expiry_samples_and_breakeven (ty : OptionType)
    (S K T r sigma q premium contracts : ℝ) (pos : Chart.Position) :
    (∀ pt ∈ (Chart.calculatePLData ty S K T r sigma q premium contracts pos).expiryData,
       Chart.minPrice S ≤ pt.1 ∧ pt.1 ≤ Chart.maxPrice S ∧
       pt.2 = (BlackScholes.intrinsicValue ty pt.1 K - premium)
         * Chart.multiplier pos * 100 * contracts) ∧
    (Chart.calculatePLData ty S K T r sigma q premium contracts pos).breakeven
      = (match ty with | .call => K + premium | .put => K - premium) := by
  constructor
  · intro pt hpt
    simp only [Chart.calculatePLData, List.mem_map] at hpt
    obtain ⟨pr, hpr, rfl⟩ := hpt
    have hbounds : Chart.minPrice S ≤ pr ∧ pr ≤ Chart.maxPrice S := by
      simp only [Chart.samplePoints] at hpr
      split_ifs at hpr with h
      · simp at hpr
      · rw [List.mem_map] at hpr
        obtain ⟨i, hi, rfl⟩ := hpr
        rw [List.mem_range] at hi
        have hle : Chart.minPrice S ≤ Chart.maxPrice S := not_lt.mp h
        have hstep : 0 ≤ Chart.sampleStep S := by
          unfold Chart.sampleStep
          have : (0:ℝ) ≤ Chart.maxPrice S - Chart.minPrice S := by linarith
          positivity
        have hi200 : (i : ℝ) ≤ 200 := by
          have := Nat.lt_succ_iff.mp hi
          exact_mod_cast this
        constructor
        · nlinarith [mul_nonneg (Nat.cast_nonneg (α := ℝ) i) hstep]
        · have hmul : (i:ℝ) * Chart.sampleStep S ≤ 200 * Chart.sampleStep S :=
            mul_le_mul_of_nonneg_right hi200 hstep
          have h200 : Chart.minPrice S + 200 * Chart.sampleStep S = Chart.maxPrice S := by
            unfold Chart.sampleStep
            ring
          linarith
    refine ⟨hbounds.1, hbounds.2, ?_⟩
    cases ty <;>
      simp only [Chart.expiryPL, BlackScholes.intrinsicValue, Chart.contractSize] <;>
      ring
  · cases pos <;> cases ty <;> rfl

/-- C8 witness for a long call with `S = K = 100`, `premium = 2`, one
contract: the concrete first sample `(50, -200)` of the at-expiration leg
satisfies the bounds and the P/L formula, and the breakeven is `102`. -/
theorem payoff_expiry_samples_and_breakeven_witness :
    (Chart.minPrice 100 ≤ 50 ∧ (50:ℝ) ≤ Chart.maxPrice 100 ∧
      (-200:ℝ) = (BlackScholes.intrinsicValue .call 50 100 - 2)
        * Chart.multiplier .long * 100 * 1) ∧
    (Chart.calculatePLData .call 100 100 0 0 (1/5) 0 2 1 .long).breakeven = 100 + 2 := by
  have hmin : Chart.minPrice 100 = 50 := by
    unfold Chart.minPrice
    rw [max_eq_right (by norm_num : (0.01:ℝ) ≤ 100 * 0.5)]
    norm_num
  have hmax : Chart.maxPrice 100 = 150 := by
    unfold Chart.maxPrice
    norm_num
  have h50 : (50:ℝ) ∈ Chart.samplePoints 100 := by
    unfold Chart.samplePoints
    have hcond : ¬ Chart.maxPrice 100 < Chart.minPrice 100 := by
      rw [hmin, hmax]
      norm_num
    rw [if_neg hcond]
    refine List.mem_map.mpr ⟨0, List.mem_range.mpr (by norm_num : (0:ℕ) < 201), ?_⟩
    rw [hmin]
    norm_num
  have hmem : ((50:ℝ), (-200:ℝ))
      ∈ (Chart.calculatePLData .call 100 100 0 0 (1/5) 0 2 1 .long).expiryData := by
    simp only [Chart.calculatePLData]
    refine List.mem_map.mpr ⟨50, h50, ?_⟩
    simp only [Chart.expiryPL, Chart.multiplier, Chart.contractSize]
    norm_num [max_eq_left (by norm_num : (50:ℝ) - 100 ≤ 0)]
  constructor
  · exact (payoff_expiry_samples_and_breakeven .call 100 100 0 0 (1/5) 0 2 1 .long).1
      ((50:ℝ), (-200:ℝ)) hmem
  · exact (payoff_expiry_samples_and_breakeven .call 100 100 0 0 (1/5) 0 2 1 .long).2
